import Mathlib

/-
Verification of the chat-relay handler in `src/api/chat.js` against its
specification.  The handler is a sequential orchestration of three outbound
HTTP calls (create chat, poll status, list messages).  We embed it as a pure
function over an environment that supplies the parsed responses of the three
remote operations, and we track how many outbound calls of each kind are made.
-/

namespace CozeChat

/-- Model of a JSON value as far as JavaScript truthiness is concerned.
`jobj` stands for any object or array (always truthy). -/
inductive JsonValue where
  | jnull
  | jbool (b : Bool)
  | jnum (n : Int)
  | jstr (s : String)
  | jobj
  deriving DecidableEq

/-- JavaScript truthiness of a JSON value (`!v` in the source is `!v.truthy`).
`null`, `false`, `0` and `""` are falsy; objects are truthy. -/
def JsonValue.truthy : JsonValue → Bool
  | .jnull => false
  | .jbool b => b
  | .jnum n => n != 0
  | .jstr s => s != ""
  | .jobj => true

/-- Request body shape: `{ message }` destructured from `req.body || {}`;
the field may be absent (`none`). -/
structure ReqBody where
  message : Option JsonValue
  deriving DecidableEq

/-- Inbound request: `req.method` and `req.body` (the body itself may be a
falsy value such as `undefined`, modelled by `none`). -/
structure Request where
  method : String
  body : Option ReqBody
  deriving DecidableEq

/-- Process-wide configuration: `process.env.COZE_API_TOKEN` and
`process.env.COZE_BOT_ID`; an unset variable is `none`. -/
structure Config where
  apiToken : Option String
  botId : Option String
  deriving DecidableEq

/-- Truthiness of `const { message } = req.body || {}` followed by
`!message`: the message is truthy when the body exists, the field exists,
and its value is JS-truthy. -/
def messageTruthy (req : Request) : Bool :=
  match req.body with
  | none => false
  | some b =>
    match b.message with
    | none => false
    | some v => v.truthy

/-- Truthiness of an environment-variable string: `undefined` and `""` are
falsy. -/
def envTruthy : Option String → Bool
  | none => false
  | some s => s != ""

/-- The configuration check `!apiToken || !botId` in the source, negated:
both variables are set and non-empty. -/
def configPresent (cfg : Config) : Bool :=
  envTruthy cfg.apiToken && envTruthy cfg.botId

/-- JavaScript `m || d` for an optional string `m`: the default is used when
`m` is absent or empty (both are falsy). -/
def jsOr (m : Option String) (d : String) : String :=
  match m with
  | none => d
  | some s => if s = "" then d else s

/-- The `data` object of a create/retrieve response:
`{ id, conversation_id, status }`. -/
structure ChatObj where
  id : String
  conversation_id : String
  status : String
  deriving DecidableEq

/-- A chat message as returned by the message-list call:
`{ role, type, content }`. -/
structure Message where
  role : String
  type : String
  content : String
  deriving DecidableEq

/-- Envelope of every Coze response body: `{ code, msg?, data }`. -/
structure CozeEnvelope (α : Type) where
  code : Int
  msg : Option String
  data : α
  deriving DecidableEq

/-- Result of one `fetch`: the HTTP transport status, and the parsed JSON
body (`none` when `resp.json()` throws because the body is not JSON; the
exception is caught by the handler's top-level `catch`). -/
structure FetchResult (α : Type) where
  httpStatus : Nat
  json : Option α
  deriving DecidableEq

/-- Environment of remote responses: the create response, the response to the
i-th poll call (0-indexed), and the message-list response. -/
structure Env where
  create : FetchResult (CozeEnvelope ChatObj)
  polls : Nat → FetchResult (CozeEnvelope ChatObj)
  list : FetchResult (CozeEnvelope (List Message))

/-- An HTTP reply produced by the handler: `res.status(s).json({ error })` or
`res.status(s).json({ reply })`. -/
inductive HttpReply where
  | jsonError (status : Nat) (error : String)
  | jsonReply (status : Nat) (reply : String)
  deriving DecidableEq

/-- The HTTP status code of a reply. -/
def HttpReply.statusOf : HttpReply → Nat
  | .jsonError s _ => s
  | .jsonReply s _ => s

/-- Count of outbound calls made during one handling: create calls, poll
calls, message-list calls. -/
structure Trace where
  createCalls : Nat
  pollCalls : Nat
  listCalls : Nat
  deriving DecidableEq

/-- Outcome of the polling loop of `src/api/chat.js` lines 56-72.
`threw a`: the poll made with the counter at `a` had an unparseable body
(`pollResp.json()` threw; `a + 1` poll calls were made in total).
`codeError m a`: the poll made with the counter at `a` reported a non-zero
`code`; the handler returns at line 68 before `attempts++` runs, so the
counter still holds `a` although `a + 1` poll calls were made.
`finished st a`: the loop guard failed with `status = st` and
`attempts = a`; exactly `a` poll calls were made. -/
inductive PollOutcome where
  | threw (attempts : Nat)
  | codeError (m : Option String) (attempts : Nat)
  | finished (finalStatus : String) (attempts : Nat)
  deriving DecidableEq

/-- The polling loop `while (status === 'in_progress' && attempts < 30)`,
embedded with structural fuel.  Starting from `attempts = 0` with `fuel = 30`
the fuel cannot run out while the guard holds: each iteration increments
`attempts` and the guard requires `attempts < 30`, so at `fuel = 0` we have
`attempts = 30` and returning `finished` agrees with the guard failing. -/
def pollLoopFuel (polls : Nat → FetchResult (CozeEnvelope ChatObj)) :
    Nat → String → Nat → PollOutcome
  | 0, status, attempts => .finished status attempts
  | fuel + 1, status, attempts =>
    if status = "in_progress" ∧ attempts < 30 then
      match (polls attempts).json with
      | none => .threw attempts
      | some pollData =>
        if pollData.code ≠ 0 then .codeError pollData.msg attempts
        else pollLoopFuel polls fuel pollData.data.status (attempts + 1)
    else .finished status attempts

/-- Extraction of the reply (lines 90-93): filter to `role === 'assistant'`
and `type === 'answer'`, then take `botMessages[botMessages.length - 1]` when
the filtered list is non-empty, else the empty string. -/
def extractReply (msgs : List Message) : String :=
  let botMessages := msgs.filter fun m => m.role == "assistant" && m.type == "answer"
  if h : 0 < botMessages.length then
    (botMessages.get ⟨botMessages.length - 1, by omega⟩).content
  else ""

/-- Shallow embedding of `handler` in `src/api/chat.js`, returning the HTTP
reply together with the trace of outbound calls.  The `httpStatus` fields of
the environment are never read, mirroring the source, which never inspects
`resp.ok` or `resp.status`.  An unparseable body (`json = none`) follows the
source's `catch` to the 500 `Internal server error` reply. -/
def handler (req : Request) (cfg : Config) (env : Env) : HttpReply × Trace :=
  if req.method ≠ "POST" then
    (.jsonError 405 "Method Not Allowed", ⟨0, 0, 0⟩)
  else if messageTruthy req = false then
    (.jsonError 400 "Missing \"message\" in request body", ⟨0, 0, 0⟩)
  else if configPresent cfg = false then
    (.jsonError 500 "Coze API token or Bot ID not configured in environment variables.", ⟨0, 0, 0⟩)
  else
    match env.create.json with
    | none => (.jsonError 500 "Internal server error", ⟨1, 0, 0⟩)
    | some createData =>
      if createData.code ≠ 0 then
        (.jsonError 500 (jsOr createData.msg "Failed to start Coze chat"), ⟨1, 0, 0⟩)
      else
        match pollLoopFuel env.polls 30 createData.data.status 0 with
        | .threw a => (.jsonError 500 "Internal server error", ⟨1, a + 1, 0⟩)
        | .codeError m a =>
          (.jsonError 500 (jsOr m "Error while polling Coze chat"), ⟨1, a + 1, 0⟩)
        | .finished st a =>
          if st ≠ "completed" then
            (.jsonError 500 ("Chat did not complete (status: " ++ st ++ ")"), ⟨1, a, 0⟩)
          else
            match env.list.json with
            | none => (.jsonError 500 "Internal server error", ⟨1, a, 1⟩)
            | some msgData =>
              if msgData.code ≠ 0 then
                (.jsonError 500 (jsOr msgData.msg "Failed to fetch chat messages"), ⟨1, a, 1⟩)
              else
                (.jsonReply 200 (extractReply msgData.data), ⟨1, a, 1⟩)

/-- The three inbound validation checks all pass: POST method, truthy
message, configuration present. -/
def passesChecks (req : Request) (cfg : Config) : Prop :=
  req.method = "POST" ∧ messageTruthy req = true ∧ configPresent cfg = true

instance (req : Request) (cfg : Config) : Decidable (passesChecks req cfg) := by
  unfold passesChecks; infer_instance

/-- A poll response that parses, succeeds (`code = 0`), and reports status
`in_progress`. -/
def isInProgressOk (r : FetchResult (CozeEnvelope ChatObj)) : Bool :=
  match r.json with
  | none => false
  | some p => p.code == 0 && p.data.status == "in_progress"

/-- The condition the spec's validation claim speaks about: the body has a
`message` field holding a non-empty string.  (Stated from the spec's words,
for comparison with the source's truthiness check `!message`.) -/
def hasNonEmptyMessageString (req : Request) : Bool :=
  match req.body with
  | none => false
  | some b =>
    match b.message with
    | some (.jstr s) => s != ""
    | _ => false

/-- Replace the HTTP transport status of every response in the environment,
leaving all parsed bodies unchanged. -/
def setHttpStatuses (env : Env) (c : Nat) (p : Nat → Nat) (l : Nat) : Env where
  create := { env.create with httpStatus := c }
  polls := fun i => { env.polls i with httpStatus := p i }
  list := { env.list with httpStatus := l }

/-! Concrete fixtures used by witnesses and counterexamples. -/

/-- A well-formed POST request with a non-empty string message. -/
def reqPost : Request := ⟨"POST", some ⟨some (.jstr "hello")⟩⟩

/-- A GET request (otherwise well-formed). -/
def reqGet : Request := ⟨"GET", some ⟨some (.jstr "hello")⟩⟩

/-- A POST request whose body is absent. -/
def reqNoBody : Request := ⟨"POST", none⟩

/-- A POST request whose `message` is the number 5: truthy, but not a
non-empty string. -/
def reqNumMsg : Request := ⟨"POST", some ⟨some (.jnum 5)⟩⟩

/-- Both environment variables set. -/
def cfgFull : Config := ⟨some "tok", some "bot"⟩

/-- Bot id missing from the environment. -/
def cfgNoBot : Config := ⟨some "tok", none⟩

/-- A successful (code 0) create/poll response with the given status. -/
def okChat (st : String) : FetchResult (CozeEnvelope ChatObj) :=
  ⟨200, some ⟨0, none, ⟨"chat1", "conv1", st⟩⟩⟩

/-- A successful (code 0) message-list response with the given messages. -/
def msgListOk (msgs : List Message) : FetchResult (CozeEnvelope (List Message)) :=
  ⟨200, some ⟨0, none, msgs⟩⟩

/-- Environment where the chat is already completed at creation and the list
call returns the given messages. -/
def envDone (msgs : List Message) : Env :=
  ⟨okChat "completed", fun _ => okChat "completed", msgListOk msgs⟩

/-- Environment where every poll reports `in_progress` with code 0. -/
def envAllInProgress : Env :=
  ⟨okChat "in_progress", fun _ => okChat "in_progress", msgListOk []⟩

/-- Environment where the first poll reports `in_progress` and every later
poll reports `completed`. -/
def envTwoPolls : Env :=
  ⟨okChat "in_progress",
   fun i => if i = 0 then okChat "in_progress" else okChat "completed",
   msgListOk []⟩

/-- Environment where the first two polls report `in_progress` and every
later poll reports `completed`. -/
def envThreePolls : Env :=
  ⟨okChat "in_progress",
   fun i => if i ≤ 1 then okChat "in_progress" else okChat "completed",
   msgListOk []⟩

/-- Environment where the create call reports a non-zero code with a remote
message. -/
def envCreateFail : Env :=
  ⟨⟨200, some ⟨99, some "bad bot", ⟨"", "", ""⟩⟩⟩,
   fun _ => okChat "completed", msgListOk []⟩

/-- Environment where the chat starts `in_progress` and the first poll
reports a non-zero code with a remote message. -/
def envPollErr : Env :=
  ⟨okChat "in_progress",
   fun _ => ⟨200, some ⟨7, some "boom", ⟨"", "", "in_progress"⟩⟩⟩,
   msgListOk []⟩

/-- Environment whose create response has a bad HTTP transport status (500)
but a parseable, successful (code 0) body reporting `completed`, and whose
list response likewise has a bad transport status (404) with a code-0 body. -/
def envBadHttp : Env :=
  ⟨⟨500, some ⟨0, none, ⟨"chat1", "conv1", "completed"⟩⟩⟩,
   fun _ => okChat "completed",
   ⟨404, some ⟨0, none, []⟩⟩⟩

/-- A user message fixture. -/
def msgUser : Message := ⟨"user", "question", "hi"⟩

/-- First assistant answer fixture. -/
def msgA : Message := ⟨"assistant", "answer", "A"⟩

/-- Second assistant answer fixture. -/
def msgB : Message := ⟨"assistant", "answer", "B"⟩

/-! Helper lemmas about the polling loop. -/

/-- When the status is not `in_progress` the loop body never runs: the loop
exits immediately with the counter unchanged. -/
theorem pollLoopFuel_not_inProgress (polls : Nat → FetchResult (CozeEnvelope ChatObj))
    (fuel : Nat) (status : String) (attempts : Nat) (h : status ≠ "in_progress") :
    pollLoopFuel polls fuel status attempts = .finished status attempts := by
  cases fuel <;> simp [pollLoopFuel, h]

/-- One successful iteration: with the guard true and a parsed code-0 poll,
the loop re-enters with the polled status and the counter incremented. -/
theorem pollLoopFuel_step (polls : Nat → FetchResult (CozeEnvelope ChatObj))
    (fuel attempts : Nat) (status : String) (p : CozeEnvelope ChatObj)
    (hs : status = "in_progress") (ha : attempts < 30)
    (hj : (polls attempts).json = some p) (hc : p.code = 0) :
    pollLoopFuel polls (fuel + 1) status attempts =
      pollLoopFuel polls fuel p.data.status (attempts + 1) := by
  subst hs
  simp only [pollLoopFuel]
  rw [if_pos ⟨by trivial, ha⟩, hj]
  simp [hc]

/-- One failing iteration: with the guard true and a parsed poll whose code
is non-zero, the loop returns the remote message with the counter NOT
incremented (the source returns at line 68, before `attempts++`). -/
theorem pollLoopFuel_stepErr (polls : Nat → FetchResult (CozeEnvelope ChatObj))
    (fuel attempts : Nat) (status : String) (p : CozeEnvelope ChatObj)
    (hs : status = "in_progress") (ha : attempts < 30)
    (hj : (polls attempts).json = some p) (hc : p.code ≠ 0) :
    pollLoopFuel polls (fuel + 1) status attempts = .codeError p.msg attempts := by
  subst hs
  simp only [pollLoopFuel]
  rw [if_pos ⟨by trivial, ha⟩, hj]
  simp [hc]

/-- When every one of the first 30 polls parses, succeeds, and reports
`in_progress`, the loop runs its budget down and exits with counter 30. -/
theorem pollLoopFuel_all_inProgress (polls : Nat → FetchResult (CozeEnvelope ChatObj))
    (hall : ∀ i, i < 30 → isInProgressOk (polls i) = true) :
    ∀ fuel attempts, attempts + fuel = 30 →
      pollLoopFuel polls fuel "in_progress" attempts = .finished "in_progress" 30 := by
  intro fuel
  induction fuel with
  | zero =>
    intro a ha
    simp only [pollLoopFuel, PollOutcome.finished.injEq, true_and]
    omega
  | succ n ih =>
    intro a ha
    have halt : a < 30 := by omega
    have h := hall a halt
    unfold isInProgressOk at h
    cases hj : (polls a).json with
    | none => rw [hj] at h; simp at h
    | some p =>
      rw [hj] at h
      simp only [Bool.and_eq_true, beq_iff_eq] at h
      obtain ⟨hc, hs⟩ := h
      rw [pollLoopFuel_step polls n a "in_progress" p rfl halt hj hc, hs]
      exact ih (a + 1) (by omega)

/-- The loop depends only on the parsed bodies of the poll responses, never
on their transport statuses. -/
theorem pollLoopFuel_polls_congr (polls polls2 : Nat → FetchResult (CozeEnvelope ChatObj))
    (h : ∀ i, (polls2 i).json = (polls i).json) :
    ∀ fuel status attempts,
      pollLoopFuel polls2 fuel status attempts = pollLoopFuel polls fuel status attempts := by
  intro fuel
  induction fuel with
  | zero => intro s a; rfl
  | succ n ih =>
    intro s a
    unfold pollLoopFuel
    rw [h a]
    by_cases hg : s = "in_progress" ∧ a < 30
    · rw [if_pos hg, if_pos hg]
      cases (polls a).json with
      | none => rfl
      | some p =>
        by_cases hc : p.code ≠ 0
        · simp [hc]
        · simp [hc, ih]
    · rw [if_neg hg, if_neg hg]

/-- Indexing a non-empty list at `length - 1` and projecting `content` is
the same as mapping `content` over `getLast?` and defaulting. -/
theorem get_last_content : ∀ (l : List Message) (h : 0 < l.length),
    (l.get ⟨l.length - 1, by omega⟩).content = ((l.getLast?).map Message.content).getD ""
  | [], h => absurd h (by simp)
  | [x], _ => rfl
  | x :: y :: ys, _ => by
    rw [List.getLast?_cons_cons]
    exact get_last_content (y :: ys) (by simp)

/-- Reply extraction equals taking the last element of the filtered list,
defaulting to the empty string. -/
theorem extractReply_eq_getLast (msgs : List Message) :
    extractReply msgs =
      (((msgs.filter fun m => m.role == "assistant" && m.type == "answer").getLast?).map
        Message.content).getD "" := by
  unfold extractReply
  by_cases h : 0 < (msgs.filter fun m => m.role == "assistant" && m.type == "answer").length
  · rw [dif_pos h]
    exact get_last_content _ h
  · rw [dif_neg h]
    have hnil : (msgs.filter fun m => m.role == "assistant" && m.type == "answer") = [] := by
      cases hf : msgs.filter fun m => m.role == "assistant" && m.type == "answer" with
      | nil => rfl
      | cons x xs => rw [hf] at h; simp at h
    rw [hnil]
    rfl

/-- Characterization of the handler once the three inbound checks pass and
the create call has parsed with code 0: the rest is determined by the poll
loop and the list response. -/
theorem handler_eq_afterCreate (req : Request) (cfg : Config) (env : Env)
    (cd : CozeEnvelope ChatObj) (h1 : req.method = "POST")
    (h2 : messageTruthy req = true) (h3 : configPresent cfg = true)
    (hc : env.create.json = some cd) (hcode : cd.code = 0) :
    handler req cfg env =
      match pollLoopFuel env.polls 30 cd.data.status 0 with
      | .threw a => (.jsonError 500 "Internal server error", ⟨1, a + 1, 0⟩)
      | .codeError m a => (.jsonError 500 (jsOr m "Error while polling Coze chat"), ⟨1, a + 1, 0⟩)
      | .finished st a =>
        if st ≠ "completed" then
          (.jsonError 500 ("Chat did not complete (status: " ++ st ++ ")"), ⟨1, a, 0⟩)
        else
          match env.list.json with
          | none => (.jsonError 500 "Internal server error", ⟨1, a, 1⟩)
          | some msgData =>
            if msgData.code ≠ 0 then
              (.jsonError 500 (jsOr msgData.msg "Failed to fetch chat messages"), ⟨1, a, 1⟩)
            else (.jsonReply 200 (extractReply msgData.data), ⟨1, a, 1⟩) := by
  unfold handler
  rw [if_neg (by simp [h1]), if_neg (by simp [h2]), if_neg (by simp [h3]), hc]
  simp [hcode]

/-- C8: for every request whose method is not POST, the handler returns 405
with error "Method Not Allowed" and makes no outbound call. -/
theorem C8_method_not_allowed (req : Request) (cfg : Config) (env : Env)
    (h : req.method ≠ "POST") :
    handler req cfg env = (.jsonError 405 "Method Not Allowed", ⟨0, 0, 0⟩) := by
  unfold handler
  rw [if_pos h]

/-- Witness for C8 at a concrete GET request. -/
theorem C8_method_not_allowed_witness :
    handler reqGet cfgFull (envDone []) = (.jsonError 405 "Method Not Allowed", ⟨0, 0, 0⟩) :=
  C8_method_not_allowed reqGet cfgFull (envDone []) (by decide)

/-- C9: for every valid POST request, if the API token or the bot id is
absent from the configuration, the handler returns 500 with the
configuration error message and makes no outbound call. -/
theorem C9_misconfigured (req : Request) (cfg : Config) (env : Env)
    (hm : req.method = "POST") (hmsg : messageTruthy req = true)
    (habs : cfg.apiToken = none ∨ cfg.botId = none) :
    handler req cfg env =
      (.jsonError 500 "Coze API token or Bot ID not configured in environment variables.",
        ⟨0, 0, 0⟩) := by
  have hc : configPresent cfg = false := by
    rcases habs with h | h <;> simp [configPresent, envTruthy, h]
  unfold handler
  rw [if_neg (by simp [hm]), if_neg (by simp [hmsg]), if_pos hc]

/-- Witness for C9 at a concrete request with the bot id unset. -/
theorem C9_misconfigured_witness :
    handler reqPost cfgNoBot (envDone []) =
      (.jsonError 500 "Coze API token or Bot ID not configured in environment variables.",
        ⟨0, 0, 0⟩) :=
  C9_misconfigured reqPost cfgNoBot (envDone []) (by decide) (by decide) (Or.inr rfl)

/-- C5: for every valid POST request with configuration present, a create
response with non-zero code yields 500 with the remote message (default
"Failed to start Coze chat" when the message is absent), with exactly one
outbound call: one create, no poll, no list. -/
theorem C5_create_error (req : Request) (cfg : Config) (env : Env)
    (cd : CozeEnvelope ChatObj) (hp : passesChecks req cfg)
    (hc : env.create.json = some cd) (hcode : cd.code ≠ 0) :
    handler req cfg env =
      (.jsonError 500 (jsOr cd.msg "Failed to start Coze chat"), ⟨1, 0, 0⟩) := by
  obtain ⟨h1, h2, h3⟩ := hp
  unfold handler
  rw [if_neg (by simp [h1]), if_neg (by simp [h2]), if_neg (by simp [h3]), hc]
  simp [hcode]

/-- Witness for C5 at a concrete failing create response carrying the remote
message "bad bot". -/
theorem C5_create_error_witness :
    handler reqPost cfgFull envCreateFail = (.jsonError 500 "bad bot", ⟨1, 0, 0⟩) :=
  C5_create_error reqPost cfgFull envCreateFail ⟨99, some "bad bot", ⟨"", "", ""⟩⟩
    (by decide) rfl (by decide)

/-- C10: if the create call succeeds (code 0) with a status other than
`in_progress`, the loop body never runs, so zero poll calls are made; when
that status is also not `completed`, the handler returns the 500
incomplete-chat response without a list call. -/
theorem C10_no_polls (req : Request) (cfg : Config) (env : Env)
    (cd : CozeEnvelope ChatObj) (hp : passesChecks req cfg)
    (hc : env.create.json = some cd) (hcode : cd.code = 0)
    (hst : cd.data.status ≠ "in_progress") :
    (handler req cfg env).snd.pollCalls = 0 ∧
      (cd.data.status ≠ "completed" →
        handler req cfg env =
          (.jsonError 500 ("Chat did not complete (status: " ++ cd.data.status ++ ")"),
            ⟨1, 0, 0⟩)) := by
  obtain ⟨h1, h2, h3⟩ := hp
  rw [handler_eq_afterCreate req cfg env cd h1 h2 h3 hc hcode,
    pollLoopFuel_not_inProgress env.polls 30 cd.data.status 0 hst]
  constructor
  · by_cases hcomp : cd.data.status = "completed"
    · simp only [hcomp]
      rw [if_neg (by simp)]
      cases env.list.json with
      | none => rfl
      | some md =>
        by_cases hmc : md.code = 0
        · simp [hmc]
        · simp [hmc]
    · simp [hcomp]
  · intro hne
    simp [hne]

/-- Witness for C10 at a concrete create response with status "failed". -/
theorem C10_no_polls_witness :
    (handler reqPost cfgFull
        ⟨⟨200, some ⟨0, none, ⟨"chat1", "conv1", "failed"⟩⟩⟩,
          fun _ => okChat "completed", msgListOk []⟩).snd.pollCalls = 0 ∧
      handler reqPost cfgFull
          ⟨⟨200, some ⟨0, none, ⟨"chat1", "conv1", "failed"⟩⟩⟩,
            fun _ => okChat "completed", msgListOk []⟩ =
        (.jsonError 500 "Chat did not complete (status: failed)", ⟨1, 0, 0⟩) := by
  have h := C10_no_polls reqPost cfgFull
    ⟨⟨200, some ⟨0, none, ⟨"chat1", "conv1", "failed"⟩⟩⟩,
      fun _ => okChat "completed", msgListOk []⟩
    ⟨0, none, ⟨"chat1", "conv1", "failed"⟩⟩ (by decide) rfl rfl (by decide)
  exact ⟨h.1, h.2 (by decide)⟩

/-- C2: with the create status `in_progress` and every poll reporting
`in_progress` with code 0, the handler makes exactly 30 poll calls and then
returns 500 with the observed status in the error message; in general, a
loop exit with a final status other than `completed` yields that 500 reply
and no message-list call. -/
theorem C2_poll_ceiling (req : Request) (cfg : Config) (env : Env)
    (cd : CozeEnvelope ChatObj) (hp : passesChecks req cfg)
    (hc : env.create.json = some cd) (hcode : cd.code = 0) :
    ((∀ i, i < 30 → isInProgressOk (env.polls i) = true) → cd.data.status = "in_progress" →
      handler req cfg env =
        (.jsonError 500 "Chat did not complete (status: in_progress)", ⟨1, 30, 0⟩))
    ∧ (∀ s a, pollLoopFuel env.polls 30 cd.data.status 0 = .finished s a → s ≠ "completed" →
      handler req cfg env =
        (.jsonError 500 ("Chat did not complete (status: " ++ s ++ ")"), ⟨1, a, 0⟩)) := by
  obtain ⟨h1, h2, h3⟩ := hp
  rw [handler_eq_afterCreate req cfg env cd h1 h2 h3 hc hcode]
  constructor
  · intro hall hst
    have hloop : pollLoopFuel env.polls 30 cd.data.status 0 = .finished "in_progress" 30 := by
      rw [hst]
      exact pollLoopFuel_all_inProgress env.polls hall 30 0 rfl
    rw [hloop]
    simp only []
    rw [if_pos (by decide)]
    decide
  · intro s a hloop hne
    rw [hloop]
    simp only []
    rw [if_pos hne]

/-- Witness for C2 in the environment where every poll stays `in_progress`:
30 poll calls, then the incomplete-chat 500 naming the status. -/
theorem C2_poll_ceiling_witness :
    handler reqPost cfgFull envAllInProgress =
      (.jsonError 500 "Chat did not complete (status: in_progress)", ⟨1, 30, 0⟩) :=
  (C2_poll_ceiling reqPost cfgFull envAllInProgress ⟨0, none, ⟨"chat1", "conv1", "in_progress"⟩⟩
      (by decide) rfl rfl).1 (fun i _ => rfl) rfl

/-- C1: when the handler reaches the message-listing step with a code-0 list
response, it returns 200 with the reply equal to the content of the last
entry of the order-preserving filter to role "assistant" and type "answer",
or the empty string when that filtered list is empty. -/
theorem C1_reply_last_answer (req : Request) (cfg : Config) (env : Env)
    (cd : CozeEnvelope ChatObj) (md : CozeEnvelope (List Message)) (a : Nat)
    (hp : passesChecks req cfg)
    (hc : env.create.json = some cd) (hcode : cd.code = 0)
    (hloop : pollLoopFuel env.polls 30 cd.data.status 0 = .finished "completed" a)
    (hl : env.list.json = some md) (hm0 : md.code = 0) :
    handler req cfg env =
      (.jsonReply 200
        ((((md.data.filter fun m => m.role == "assistant" && m.type == "answer").getLast?).map
            Message.content).getD ""),
        ⟨1, a, 1⟩) := by
  obtain ⟨h1, h2, h3⟩ := hp
  rw [handler_eq_afterCreate req cfg env cd h1 h2 h3 hc hcode, hloop]
  simp only []
  rw [if_neg (by simp), hl]
  simp [hm0, extractReply_eq_getLast]

/-- Witness for C1: two assistant/answer messages "A" then "B" and one user
message yield reply "B". -/
theorem C1_reply_last_answer_witness :
    handler reqPost cfgFull (envDone [msgUser, msgA, msgB]) = (.jsonReply 200 "B", ⟨1, 0, 1⟩) :=
  C1_reply_last_answer reqPost cfgFull (envDone [msgUser, msgA, msgB])
    ⟨0, none, ⟨"chat1", "conv1", "completed"⟩⟩ ⟨0, none, [msgUser, msgA, msgB]⟩ 0
    (by decide) rfl rfl (by decide) rfl rfl

/-- C3 counterexample: with create status `in_progress` and the successive
poll responses reporting `in_progress`, `in_progress`, `completed` (all code
0), the handler makes 3 poll calls, not the 2 the claim states: the guard is
re-tested after each poll, so a third poll is needed to observe
`completed`. -/
theorem C3_counterexample :
    (handler reqPost cfgFull envThreePolls).snd.pollCalls = 3 ∧
      ¬((handler reqPost cfgFull envThreePolls).snd.pollCalls = 2) := by
  decide

/-- C3 amended: the handler makes exactly 2 poll calls (then proceeds to the
message-listing step) when the create status is `in_progress` and the poll
responses report `in_progress` then `completed`; the spec's three-status
sequence counts the initial create status as its first element. -/
theorem C3_amended_two_polls (req : Request) (cfg : Config) (env : Env)
    (cd p0 p1 : CozeEnvelope ChatObj) (hp : passesChecks req cfg)
    (hc : env.create.json = some cd) (hcode : cd.code = 0)
    (hst : cd.data.status = "in_progress")
    (h0 : (env.polls 0).json = some p0) (h00 : p0.code = 0)
    (h0s : p0.data.status = "in_progress")
    (h1 : (env.polls 1).json = some p1) (h10 : p1.code = 0)
    (h1s : p1.data.status = "completed") :
    (handler req cfg env).snd.pollCalls = 2 ∧ (handler req cfg env).snd.listCalls = 1 := by
  obtain ⟨hm, hmsg, hcfg⟩ := hp
  have hloop : pollLoopFuel env.polls 30 cd.data.status 0 = .finished "completed" 2 := by
    rw [hst]
    calc pollLoopFuel env.polls 30 "in_progress" 0
        = pollLoopFuel env.polls 29 p0.data.status 1 :=
          pollLoopFuel_step env.polls 29 0 "in_progress" p0 rfl (by omega) h0 h00
      _ = pollLoopFuel env.polls 28 p1.data.status 2 := by
          rw [h0s]
          exact pollLoopFuel_step env.polls 28 1 "in_progress" p1 rfl (by omega) h1 h10
      _ = .finished "completed" 2 := by
          rw [h1s]
          exact pollLoopFuel_not_inProgress env.polls 28 "completed" 2 (by decide)
  rw [handler_eq_afterCreate req cfg env cd hm hmsg hcfg hc hcode, hloop]
  simp only []
  rw [if_neg (by simp)]
  cases env.list.json with
  | none => exact ⟨rfl, rfl⟩
  | some md =>
    by_cases hmc : md.code = 0
    · simp [hmc]
    · simp [hmc]

/-- Witness for the amended C3 in the environment whose polls report
`in_progress` then `completed`. -/
theorem C3_amended_two_polls_witness :
    (handler reqPost cfgFull envTwoPolls).snd.pollCalls = 2 ∧
      (handler reqPost cfgFull envTwoPolls).snd.listCalls = 1 :=
  C3_amended_two_polls reqPost cfgFull envTwoPolls
    ⟨0, none, ⟨"chat1", "conv1", "in_progress"⟩⟩
    ⟨0, none, ⟨"chat1", "conv1", "in_progress"⟩⟩
    ⟨0, none, ⟨"chat1", "conv1", "completed"⟩⟩
    (by decide) rfl rfl rfl rfl rfl rfl rfl rfl rfl

/-- Helper for C4: once the method and message checks pass, every reply the
handler can produce has status 500 or 200 — never 400. -/
theorem handler_statusOf_passed (req : Request) (cfg : Config) (env : Env)
    (h1 : req.method = "POST") (h2 : messageTruthy req = true) :
    (handler req cfg env).fst.statusOf = 500 ∨ (handler req cfg env).fst.statusOf = 200 := by
  unfold handler
  rw [if_neg (by simp [h1]), if_neg (by simp [h2])]
  by_cases h3 : configPresent cfg = false
  · rw [if_pos h3]; left; rfl
  · rw [if_neg h3]
    cases env.create.json with
    | none => left; rfl
    | some cd =>
      simp only []
      by_cases hcode : cd.code = 0
      · rw [if_neg (by simp [hcode])]
        cases pollLoopFuel env.polls 30 cd.data.status 0 with
        | threw a => left; rfl
        | codeError m a => left; rfl
        | finished st a =>
          simp only []
          by_cases hst : st = "completed"
          · rw [if_neg (by simp [hst])]
            cases env.list.json with
            | none => left; rfl
            | some md =>
              simp only []
              by_cases hmc : md.code = 0
              · rw [if_neg (by simp [hmc])]; right; rfl
              · rw [if_pos hmc]; left; rfl
          · rw [if_pos hst]; left; rfl
      · rw [if_pos hcode]; left; rfl

/-- C4 counterexample: a POST body whose `message` is the number 5 lacks a
non-empty `message` string, yet the handler does not return 400: the
truthiness check `!message` lets any truthy non-string through, so the
request reaches the create call (one outbound call) and fails upstream with
500 instead. -/
theorem C4_counterexample :
    hasNonEmptyMessageString reqNumMsg = false ∧
      (handler reqNumMsg cfgFull envCreateFail).fst = .jsonError 500 "bad bot" ∧
      (handler reqNumMsg cfgFull envCreateFail).snd.createCalls = 1 := by
  decide

/-- C4 amended: the handler returns the 400 missing-message error exactly
for POST requests whose `message` is absent or JS-falsy (missing body or
field, null, false, 0, or the empty string), and in that case it makes no
outbound call; a present but truthy non-string `message` is not rejected. -/
theorem C4_amended_validation (req : Request) (cfg : Config) (env : Env) :
    ((handler req cfg env).fst = .jsonError 400 "Missing \"message\" in request body"
      ↔ req.method = "POST" ∧ messageTruthy req = false)
    ∧ (req.method = "POST" → messageTruthy req = false →
        handler req cfg env =
          (.jsonError 400 "Missing \"message\" in request body", ⟨0, 0, 0⟩)) := by
  by_cases h1 : req.method = "POST"
  · by_cases h2 : messageTruthy req = false
    · have he : handler req cfg env =
          (.jsonError 400 "Missing \"message\" in request body", ⟨0, 0, 0⟩) := by
        unfold handler
        rw [if_neg (by simp [h1]), if_pos h2]
      refine ⟨⟨fun _ => ⟨h1, h2⟩, fun _ => by rw [he]⟩, fun _ _ => he⟩
    · have h2' : messageTruthy req = true := by
        cases hmt : messageTruthy req with
        | false => exact absurd hmt h2
        | true => rfl
      constructor
      · constructor
        · intro hfst
          have h400 := congrArg HttpReply.statusOf hfst
          rcases handler_statusOf_passed req cfg env h1 h2' with h | h <;>
            rw [h] at h400 <;> simp [HttpReply.statusOf] at h400
        · rintro ⟨-, hmf⟩
          exact absurd hmf h2
      · intro _ hmf
        exact absurd hmf h2
  · constructor
    · constructor
      · intro hfst
        have he : handler req cfg env = (.jsonError 405 "Method Not Allowed", ⟨0, 0, 0⟩) := by
          unfold handler
          rw [if_pos h1]
        rw [he] at hfst
        simp at hfst
      · rintro ⟨hm, -⟩
        exact absurd hm h1
    · intro hm
      exact absurd hm h1

/-- Witness for the amended C4 at a POST request with no body: the 400
missing-message reply is produced with no outbound call. -/
theorem C4_amended_validation_witness :
    ((handler reqNoBody cfgFull (envDone [])).fst =
        .jsonError 400 "Missing \"message\" in request body"
      ↔ reqNoBody.method = "POST" ∧ messageTruthy reqNoBody = false)
    ∧ handler reqNoBody cfgFull (envDone []) =
        (.jsonError 400 "Missing \"message\" in request body", ⟨0, 0, 0⟩) :=
  ⟨(C4_amended_validation reqNoBody cfgFull (envDone [])).1,
    (C4_amended_validation reqNoBody cfgFull (envDone [])).2 rfl rfl⟩

/-- C6 counterexample: the create response has HTTP transport status 500 and
the list response 404, yet both carry parseable code-0 bodies, and the
handler returns success 200 — a response with a bad HTTP status is not
treated as an upstream failure, because the source never inspects
`resp.ok` or `resp.status`. -/
theorem C6_counterexample :
    envBadHttp.create.httpStatus = 500 ∧ envBadHttp.list.httpStatus = 404 ∧
      handler reqPost cfgFull envBadHttp = (.jsonReply 200 "", ⟨1, 0, 1⟩) := by
  decide

/-- C6 amended: the 500 upstream-failure reply with the remote (or default)
message is produced by a non-zero response-level code at any of the three
calls; the HTTP transport status of a response is never inspected, so the
handler's reply and trace are invariant under arbitrary changes of every
transport status. -/
theorem C6_amended_upstream (req : Request) (cfg : Config) (env : Env)
    (c l : Nat) (p : Nat → Nat) :
    (handler req cfg (setHttpStatuses env c p l) = handler req cfg env)
    ∧ (∀ cd, passesChecks req cfg → env.create.json = some cd → cd.code ≠ 0 →
        (handler req cfg env).fst = .jsonError 500 (jsOr cd.msg "Failed to start Coze chat"))
    ∧ (∀ cd m a, passesChecks req cfg → env.create.json = some cd → cd.code = 0 →
        pollLoopFuel env.polls 30 cd.data.status 0 = .codeError m a →
        (handler req cfg env).fst = .jsonError 500 (jsOr m "Error while polling Coze chat"))
    ∧ (∀ cd a md, passesChecks req cfg → env.create.json = some cd → cd.code = 0 →
        pollLoopFuel env.polls 30 cd.data.status 0 = .finished "completed" a →
        env.list.json = some md → md.code ≠ 0 →
        (handler req cfg env).fst =
          .jsonError 500 (jsOr md.msg "Failed to fetch chat messages")) := by
  refine ⟨?_, ?_, ?_, ?_⟩
  · have hcong := pollLoopFuel_polls_congr env.polls (setHttpStatuses env c p l).polls
      (fun i => rfl)
    unfold handler
    simp only [hcong]
    rfl
  · intro cd hp hc hcode
    obtain ⟨h1, h2, h3⟩ := hp
    unfold handler
    rw [if_neg (by simp [h1]), if_neg (by simp [h2]), if_neg (by simp [h3]), hc]
    simp [hcode]
  · intro cd m a hp hc hcode hloop
    obtain ⟨h1, h2, h3⟩ := hp
    rw [handler_eq_afterCreate req cfg env cd h1 h2 h3 hc hcode, hloop]
  · intro cd a md hp hc hcode hloop hl hmc
    obtain ⟨h1, h2, h3⟩ := hp
    rw [handler_eq_afterCreate req cfg env cd h1 h2 h3 hc hcode, hloop]
    simp only []
    rw [if_neg (by simp), hl]
    simp [hmc]

/-- Witness for the amended C6: transport-status invariance at a concrete
environment, and the code-driven 500s for a failing create and a failing
poll. -/
theorem C6_amended_upstream_witness :
    (handler reqPost cfgFull (setHttpStatuses (envDone []) 500 (fun _ => 404) 404)
        = handler reqPost cfgFull (envDone [])) ∧
      (handler reqPost cfgFull envCreateFail).fst = .jsonError 500 "bad bot" ∧
      (handler reqPost cfgFull envPollErr).fst = .jsonError 500 "boom" := by
  refine ⟨(C6_amended_upstream reqPost cfgFull (envDone []) 500 404 (fun _ => 404)).1, ?_, ?_⟩
  · exact (C6_amended_upstream reqPost cfgFull envCreateFail 200 200 (fun _ => 200)).2.1
      ⟨99, some "bad bot", ⟨"", "", ""⟩⟩ (by decide) rfl (by decide)
  · exact (C6_amended_upstream reqPost cfgFull envPollErr 200 200 (fun _ => 200)).2.2.1
      ⟨0, none, ⟨"chat1", "conv1", "in_progress"⟩⟩ (some "boom") 0 (by decide) rfl rfl
      (by decide)

/-- C7 counterexample: the loop is entered with the counter at 0 and the
first poll reports a non-zero code; the source returns at once (line 68),
before `attempts++` runs, so the counter is still 0 — that iteration did not
increment it — even though the poll call was made (the trace counts 1 poll
call). -/
theorem C7_counterexample :
    pollLoopFuel envPollErr.polls 30 "in_progress" 0 = .codeError (some "boom") 0 ∧
      pollLoopFuel envPollErr.polls 30 "in_progress" 0 ≠ .codeError (some "boom") 1 ∧
      (handler reqPost cfgFull envPollErr).snd.pollCalls = 1 := by
  decide

/-- C7 amended: an iteration whose poll parses with code 0 increments the
attempt counter whatever status it reports; an iteration whose poll reports
a non-zero code returns from the handler immediately without incrementing
the counter, and the handler's trace then counts `attempts + 1` poll
calls. -/
theorem C7_amended_counter (polls : Nat → FetchResult (CozeEnvelope ChatObj))
    (fuel attempts : Nat) (status : String) (p : CozeEnvelope ChatObj)
    (hs : status = "in_progress") (ha : attempts < 30)
    (hj : (polls attempts).json = some p) :
    (p.code = 0 →
      pollLoopFuel polls (fuel + 1) status attempts =
        pollLoopFuel polls fuel p.data.status (attempts + 1))
    ∧ (p.code ≠ 0 →
        pollLoopFuel polls (fuel + 1) status attempts = .codeError p.msg attempts)
    ∧ (∀ req cfg env cd m, passesChecks req cfg → env.create.json = some cd → cd.code = 0 →
        pollLoopFuel env.polls 30 cd.data.status 0 = .codeError m attempts →
        (handler req cfg env).snd.pollCalls = attempts + 1) := by
  refine ⟨fun hc => pollLoopFuel_step polls fuel attempts status p hs ha hj hc,
    fun hc => pollLoopFuel_stepErr polls fuel attempts status p hs ha hj hc, ?_⟩
  intro req cfg env cd m hp hc hcode hloop
  obtain ⟨h1, h2, h3⟩ := hp
  rw [handler_eq_afterCreate req cfg env cd h1 h2 h3 hc hcode, hloop]

/-- Witness for the amended C7 at the environment whose first poll fails
with code 7 and message "boom". -/
theorem C7_amended_counter_witness :
    pollLoopFuel envPollErr.polls (29 + 1) "in_progress" 0 = .codeError (some "boom") 0 ∧
      (handler reqPost cfgFull envPollErr).snd.pollCalls = 0 + 1 := by
  have h := C7_amended_counter envPollErr.polls 29 0 "in_progress"
    ⟨7, some "boom", ⟨"", "", "in_progress"⟩⟩ rfl (by omega) rfl
  exact ⟨h.2.1 (by decide), h.2.2 reqPost cfgFull envPollErr
    ⟨0, none, ⟨"chat1", "conv1", "in_progress"⟩⟩ (some "boom") (by decide) rfl rfl (by decide)⟩

end CozeChat
